import Mathlib

/-!
# Verification of the audio-to-notes backend (`src/backend_api.py`)

A shallow embedding of the FastAPI backend of the audio-transcription and
note-taking demo.  Every endpoint is modelled as a pure function from its
request data (plus the nondeterministic values the Python code draws:
freshly generated UUIDs and timestamps, passed in as explicit string
parameters) and the server state to a response together with the new state.

The server state collects the in-memory `processing_status` dictionary and
the four flat file directories (`uploads`, `transcripts`, `summaries`,
`notes`), each an association list from the identifier part of the file
name to the stored content.  JSON documents written with `json.dump` and
read back with `json.load` are modelled as values of an inductive `Json`
type (the dump/load round trip is the identity on such values).

Exception handling is modelled structurally: every point where the Python
body can raise becomes a match arm that returns exactly what the
corresponding `try`/`except` clauses produce for that exception.  In
particular, `HTTPException` is a subclass of `Exception`, so in handlers
whose only clause is a blanket `except Exception` (upload, save-notes) a
raised `HTTPException` is caught there and surfaced as a 500 response,
while handlers with an `except HTTPException: raise` clause (transcribe,
summarize, retrieve) hand it to the app-level 404 handler.
-/

/-- JSON values, as produced by `json.load` / consumed by `json.dump`.
Numbers are modelled as rationals (the documents only hold ints and the
literal `0.95`). -/
inductive Json where
  | null : Json
  | bool (b : Bool) : Json
  | num (n : Rat) : Json
  | str (s : String) : Json
  | arr (elems : List Json) : Json
  | obj (fields : List (String × Json)) : Json
deriving Repr

namespace Json

/-- Lookup of a key in a JSON object's field list (Python `d[k]` /
`d.get(k)` on a `dict`, which holds at most one entry per key). -/
def objLookup (k : String) : List (String × Json) → Option Json
  | [] => none
  | (k', v) :: rest => if k' = k then some v else objLookup k rest

/-- Python `d[k]` on a JSON value: `none` models the raised exception
(`KeyError` on a `dict` missing the key, `TypeError` otherwise). -/
def get (j : Json) (k : String) : Option Json :=
  match j with
  | .obj fields => objLookup k fields
  | _ => none

/-- Python `d.get(k, default)`: `none` models the `AttributeError` raised
when the value is not a `dict`. -/
def getD (j : Json) (k : String) (d : Json) : Option Json :=
  match j with
  | .obj fields =>
    match objLookup k fields with
    | some v => some v
    | none => some d
  | _ => none

/-- Python `d[k] = v` on a JSON object: replace the entry in place if the
key exists, otherwise append it (dict insertion order). Not a `dict`:
leave unchanged (the code never hits that case). -/
def setField (j : Json) (k : String) (v : Json) : Json :=
  match j with
  | .obj fields => .obj (go fields)
  | _ => j
where
  go : List (String × Json) → List (String × Json)
    | [] => [(k, v)]
    | (k', v') :: rest => if k' = k then (k, v) :: rest else (k', v') :: go rest

/-- Python `len(...)`: defined on strings, lists and dicts, a `TypeError`
(modelled as `none`) on anything else. -/
def pyLen : Json → Option Nat
  | .str s => some s.length
  | .arr elems => some elems.length
  | .obj fields => some fields.length
  | _ => none

/-- Python truthiness, `bool(...)`, on a JSON value. -/
def pyTruthy : Json → Bool
  | .null => false
  | .bool b => b
  | .num n => decide (n ≠ 0)
  | .str s => decide (s ≠ "")
  | .arr [] => false
  | .arr (_ :: _) => true
  | .obj [] => false
  | .obj (_ :: _) => true

end Json

/-! ## The identifier-keyed stores

Each of the four data directories maps an identifier to one file, and the
in-memory `processing_status` dict maps a file id to its record; both are
modelled as association lists.  `Store.set` is `open(path, "w")` /
`d[k] = v`: create the entry or overwrite it in place.  `Store.get` is
`os.path.exists` + `open(path, "r")` / `k in d` + `d[k]`. -/

namespace Store

def get (k : String) : List (String × α) → Option α
  | [] => none
  | (k', v) :: rest => if k' = k then some v else get k rest

def set (k : String) (v : α) : List (String × α) → List (String × α)
  | [] => [(k, v)]
  | (k', v') :: rest => if k' = k then (k, v) :: rest else (k', v') :: set k v rest

end Store

/-! ## Python string helpers used by the upload handler -/

/-- ASCII fragment of Python `str.lower` (the allow-list comparison only
ever distinguishes ASCII extensions). -/
def pyLower (s : String) : String :=
  String.mk (s.data.map Char.toLower)

/-- Index of the last occurrence of `c` in `l`, `-1` if absent —
Python `str.rfind`. -/
def rfindChar (l : List Char) (c : Char) : Int :=
  match l.reverse.findIdx? (· = c) with
  | none => -1
  | some i => (l.length : Int) - 1 - i

/-- `posixpath.splitext` (via `genericpath._splitext` with `sep = '/'`, no
`altsep`, `extsep = '.'`): split at the last dot after the last slash,
unless every character of the basename before that dot is itself a dot. -/
def splitext (p : String) : String × String :=
  let l := p.data
  let sepIndex := rfindChar l '/'
  let dotIndex := rfindChar l '.'
  if sepIndex < dotIndex then
    -- skip all leading dots of the basename
    let base := (l.take dotIndex.toNat).drop (sepIndex + 1).toNat
    if base.any (· ≠ '.') then
      (String.mk (l.take dotIndex.toNat), String.mk (l.drop dotIndex.toNat))
    else (p, "")
  else (p, "")

/-! ## Data model -/

/-- One entry of the in-memory `processing_status` dictionary.  The Python
value is a `dict`; `transcript_id` is the key added by the transcribe
handler, `none` while absent. -/
structure StatusRecord where
  status : String
  filename : String
  file_size : Nat
  upload_timestamp : String
  transcript_id : Option String
deriving Repr, DecidableEq

/-- The whole observable server state: the in-memory status map and the
four data directories. -/
structure ServerState where
  processing_status : List (String × StatusRecord)
  uploads : List (String × List Nat)
  transcripts : List (String × Json)
  summaries : List (String × Json)
  notes : List (String × Json)
deriving Repr

/-- The state of a freshly started server (empty directories, empty
status map). -/
def initState : ServerState := ⟨[], [], [], [], []⟩

/-- `TranscribeRequest`: `audio_file_id: str`, `language: Optional[str] = "en"`. -/
structure TranscribeRequest where
  audio_file_id : String
  language : Option String
deriving Repr, DecidableEq

/-- `SummarizeRequest`: `transcript_id: str`, `summary_type: Optional[str] = "standard"`. -/
structure SummarizeRequest where
  transcript_id : String
  summary_type : Option String
deriving Repr, DecidableEq

/-- `SaveNotesRequest`: `transcript_id: str`, `summary_id: str`,
`user_notes: Optional[str] = ""`. -/
structure SaveNotesRequest where
  transcript_id : String
  summary_id : String
  user_notes : Option String
deriving Repr, DecidableEq

/-- JSON encoding of an `Optional[str]` field. -/
def encodeOptStr : Option String → Json
  | none => Json.null
  | some s => Json.str s

/-- The shape of every endpoint's JSON response: HTTP status code plus the
body fields used throughout `backend_api.py`. -/
structure ApiResponse where
  status_code : Nat
  success : Bool
  message : String
  data : Option Json
  error : Option String
deriving Repr

/-- A 500 response produced by a blanket `except Exception` clause. -/
def resp500 (message error : String) : ApiResponse :=
  { status_code := 500, success := false, message := message, data := none, error := some error }

/-- The app-level 404 exception handler (`not_found_handler`): it receives
the `HTTPException` re-raised by an endpoint and wraps its detail. -/
def notFoundResponse (detail : String) : ApiResponse :=
  { status_code := 404, success := false, message := "Resource not found", data := none, error := some detail }

/-- A 200 `JSONResponse` with a data payload. -/
def okResponse (message : String) (data : Json) : ApiResponse :=
  { status_code := 200, success := true, message := message, data := some data, error := none }

/-! ## Simulated processing (`simulate_asr_processing`, `simulate_nlp_processing`) -/

/-- `simulate_asr_processing(audio_file_id)`.  `freshId` is the value the
call to `generate_id()` returned and `ts` the value of `get_timestamp()`. -/
def simulate_asr_processing (freshId ts audio_file_id : String) : Json :=
  Json.obj
    [ ("transcript_id", .str freshId)
    , ("audio_file_id", .str audio_file_id)
    , ("transcript_text", .str "This is a simulated transcript of the audio recording. In a real implementation, this would be the output from an ASR service like Whisper, Google Speech-to-Text, or Azure Speech Services.")
    , ("duration_seconds", .num 120)
    , ("language", .str "en")
    , ("confidence", .num 0.95)
    , ("timestamp", .str ts)
    , ("metadata", .obj [("speaker_count", .num 1), ("audio_quality", .str "high")]) ]

/-- `simulate_nlp_processing(transcript_text)` — the argument is ignored by
the Python body, which returns canned text. -/
def simulate_nlp_processing (freshId ts : String) (_transcript_text : Json) : Json :=
  Json.obj
    [ ("summary_id", .str freshId)
    , ("summary_text", .str "Summary: This recording covers key concepts and important points. Main topics discussed include fundamental principles and practical applications.")
    , ("key_points", .arr
        [ .str "First key point extracted from the transcript"
        , .str "Second important concept discussed"
        , .str "Third major takeaway from the content" ])
    , ("entities", .arr [.str "concept", .str "principle", .str "application"])
    , ("sentiment", .str "neutral")
    , ("timestamp", .str ts) ]

/-! ## Endpoints -/

def allowed_extensions : List String := [".mp3", ".wav", ".m4a", ".ogg", ".flac"]

/-- `bool(request.user_notes)` for an `Optional[str]` value. -/
def pyTruthyOptStr : Option String → Bool
  | none => false
  | some s => decide (s ≠ "")

/-- `POST /upload-audio` (`upload_audio`).  `freshId` is the UUID drawn by
`generate_id()`; `ts1`/`ts2` are the two `get_timestamp()` calls (status
entry, response payload). -/
def upload_audio (freshId ts1 ts2 : String) (filename : String) (content : List Nat)
    (s : ServerState) : ApiResponse × ServerState :=
  let file_ext := pyLower (splitext filename).2
  if file_ext ∉ allowed_extensions then
    -- `raise HTTPException(status_code=400, ...)`: `HTTPException` subclasses
    -- `Exception`, and this handler's only clause is the blanket
    -- `except Exception`, so the raise is caught right here and surfaced as
    -- the generic 500 upload-failure response (`str(e)` = "code: detail").
    (resp500 "Failed to upload audio file"
      "400: Invalid file format. Allowed formats: .mp3, .wav, .m4a, .ogg, .flac", s)
  else
    let file_path := freshId ++ file_ext
    let statusRec : StatusRecord :=
      { status := "uploaded", filename := filename, file_size := content.length
      , upload_timestamp := ts1, transcript_id := none }
    let s' := { s with
      uploads := Store.set file_path content s.uploads
      processing_status := Store.set freshId statusRec s.processing_status }
    (okResponse "Audio file uploaded successfully"
      (.obj [ ("file_id", .str freshId), ("filename", .str filename)
            , ("file_size_bytes", .num (content.length : Rat))
            , ("format", .str file_ext), ("upload_timestamp", .str ts2) ]), s')

/-- `POST /transcribe` (`transcribe_audio`). -/
def transcribe_audio (freshId ts : String) (request : TranscribeRequest)
    (s : ServerState) : ApiResponse × ServerState :=
  match Store.get request.audio_file_id s.processing_status with
  | none =>
    -- `raise HTTPException(404, ...)` is re-raised by `except HTTPException`
    -- and rendered by the app-level 404 handler.
    (notFoundResponse "Audio file not found. Please upload the file first.", s)
  | some statusRec =>
    let asr_output := simulate_asr_processing freshId ts request.audio_file_id
    let s' := { s with
      transcripts := Store.set freshId asr_output s.transcripts
      processing_status := Store.set request.audio_file_id
        { statusRec with status := "transcribed", transcript_id := some freshId }
        s.processing_status }
    (okResponse "Audio transcribed successfully" asr_output, s')

/-- `POST /summarize` (`summarize_transcript`). -/
def summarize_transcript (freshId ts : String) (request : SummarizeRequest)
    (s : ServerState) : ApiResponse × ServerState :=
  match Store.get request.transcript_id s.transcripts with
  | none =>
    (notFoundResponse "Transcript not found. Please transcribe the audio first.", s)
  | some transcript_data =>
    match transcript_data.get "transcript_text" with
    | none =>
      -- `transcript_data["transcript_text"]` raised (KeyError / TypeError),
      -- caught by the blanket `except Exception` clause.
      (resp500 "Summarization failed" "KeyError: transcript_text", s)
    | some transcript_text =>
      let nlp_output :=
        (simulate_nlp_processing freshId ts transcript_text).setField
          "transcript_id" (.str request.transcript_id)
      let s' := { s with summaries := Store.set freshId nlp_output s.summaries }
      (okResponse "Transcript summarized successfully" nlp_output, s')

/-- The combined `notes_document` dict built by `save_notes`. -/
def notes_document (note_id ts : String) (request : SaveNotesRequest)
    (transcript_data summary_data : Json) : Json :=
  Json.obj
    [ ("note_id", .str note_id)
    , ("transcript_id", .str request.transcript_id)
    , ("summary_id", .str request.summary_id)
    , ("created_at", .str ts)
    , ("transcript", transcript_data)
    , ("summary", summary_data)
    , ("user_notes", encodeOptStr request.user_notes)
    , ("status", .str "saved") ]

/-- `POST /save-notes` (`save_notes`). -/
def save_notes (freshId ts : String) (request : SaveNotesRequest)
    (s : ServerState) : ApiResponse × ServerState :=
  match Store.get request.transcript_id s.transcripts with
  | none =>
    -- `open(transcript_file)` raised FileNotFoundError; the only clause is
    -- the blanket `except Exception`, so this is a 500, not a 404.
    (resp500 "Failed to save notes" "No such file or directory: transcript", s)
  | some transcript_data =>
    match Store.get request.summary_id s.summaries with
    | none =>
      (resp500 "Failed to save notes" "No such file or directory: summary", s)
    | some summary_data =>
      let doc := notes_document freshId ts request transcript_data summary_data
      let s' := { s with notes := Store.set freshId doc s.notes }
      -- The note file is written before the response payload is built;
      -- `len(transcript_data.get("transcript_text", ""))` or
      -- `len(summary_data.get("key_points", []))` can still raise, in which
      -- case the blanket handler returns 500 but the written note remains.
      match (transcript_data.getD "transcript_text" (.str "")).bind Json.pyLen,
            (summary_data.getD "key_points" (.arr [])).bind Json.pyLen with
      | some transcript_length, some summary_points =>
        (okResponse "Notes saved successfully"
          (.obj [ ("note_id", .str freshId), ("created_at", .str ts)
                , ("transcript_length", .num (transcript_length : Rat))
                , ("summary_points", .num (summary_points : Rat))
                , ("has_user_notes", .bool (pyTruthyOptStr request.user_notes)) ]), s')
      | _, _ => (resp500 "Failed to save notes" "error while building the response", s')

/-- `GET /notes/{note_id}` (`get_notes`). -/
def get_notes (note_id : String) (s : ServerState) : ApiResponse × ServerState :=
  match Store.get note_id s.notes with
  | none => (notFoundResponse "Notes not found", s)
  | some notes_data => (okResponse "Notes retrieved successfully" notes_data, s)

/-- One entry of the `GET /notes` listing, built from a note file's content;
`none` models the exception raised by `note_data["note_id"]` /
`note_data["created_at"]` when the document lacks the key or is not a dict. -/
def noteListEntry (note_data : Json) : Option Json :=
  match note_data with
  | .obj fields =>
    match Json.objLookup "note_id" fields, Json.objLookup "created_at" fields with
    | some nid, some cat =>
      -- `bool(note_data.get("user_notes"))`: default None is falsy
      let user_notes := (Json.objLookup "user_notes" fields).getD .null
      some (.obj [ ("note_id", nid), ("created_at", cat)
                 , ("has_user_notes", .bool user_notes.pyTruthy) ])
    | _, _ => none
  | _ => none

/-- The loop of `list_all_notes` over every `.json` file of the notes
directory (each stored file name is `id ++ ".json"`, so the `endswith`
filter keeps all of them); `none` aborts the whole listing with a 500. -/
def buildNotesList : List (String × Json) → Option (List Json)
  | [] => some []
  | (_, note_data) :: rest =>
    match noteListEntry note_data, buildNotesList rest with
    | some entry, some entries => some (entry :: entries)
    | _, _ => none

/-- `GET /notes` (`list_all_notes`). -/
def list_all_notes (s : ServerState) : ApiResponse × ServerState :=
  match buildNotesList s.notes with
  | some notes_list =>
    (okResponse ("Found " ++ toString notes_list.length ++ " notes")
      (.obj [("count", .num (notes_list.length : Rat)), ("notes", .arr notes_list)]), s)
  | none => (resp500 "Failed to list notes" "error while reading a note file", s)

/-- JSON rendering of a status record, as returned by `GET /status`; the
`transcript_id` key exists only once transcription has completed. -/
def statusRecordJson (r : StatusRecord) : Json :=
  Json.obj
    ([ ("status", .str r.status), ("filename", .str r.filename)
     , ("file_size", .num (r.file_size : Rat))
     , ("upload_timestamp", .str r.upload_timestamp) ] ++
     (match r.transcript_id with
      | none => []
      | some tid => [("transcript_id", .str tid)]))

/-- `GET /status/{file_id}` (`get_processing_status`). -/
def get_processing_status (file_id : String) (s : ServerState) : ApiResponse × ServerState :=
  match Store.get file_id s.processing_status with
  | none => (notFoundResponse "File not found", s)
  | some statusRec => (okResponse "Status retrieved successfully" (statusRecordJson statusRec), s)

/-- Sequential execution of a batch of `POST /save-notes` requests; each step
carries the UUID drawn by `generate_id()`, the `get_timestamp()` value and
the request body. -/
def runSaves (steps : List (String × String × SaveNotesRequest)) (s : ServerState) : ServerState :=
  match steps with
  | [] => s
  | (freshId, ts, request) :: rest => runSaves rest (save_notes freshId ts request s).2

/-! ## Concrete fixtures (used to instantiate the theorems below) -/

/-- A transcript document as the transcribe endpoint stores it. -/
def fixtureTdoc : Json := simulate_asr_processing "t1" "ts-a" "u1"

/-- A summary document as the summarize endpoint stores it. -/
def fixtureSdoc : Json :=
  (simulate_nlp_processing "s1" "ts-b" (Json.str "x")).setField "transcript_id" (Json.str "t1")

/-- A small reachable server state: one upload, already transcribed and
summarized, no notes yet. -/
def fixtureState : ServerState :=
  { processing_status := [("u1", ⟨"transcribed", "a.mp3", 2, "ts-0", some "t1"⟩)]
  , uploads := [("u1.mp3", [10, 20])]
  , transcripts := [("t1", fixtureTdoc)]
  , summaries := [("s1", fixtureSdoc)]
  , notes := [] }

/-! # Theorems

First the store laws and endpoint frame lemmas, then one theorem per
specification claim. -/

namespace Store

@[simp] theorem get_nil (k : String) : get k ([] : List (String × α)) = none := rfl

@[simp] theorem get_set_self (k : String) (v : α) (l : List (String × α)) :
    get k (set k v l) = some v := by
  induction l with
  | nil => simp [get, set]
  | cons hd tl ih =>
    obtain ⟨k', v'⟩ := hd
    by_cases h : k' = k <;> simp [get, set, h, ih]

theorem get_set_ne (k j : String) (v : α) (l : List (String × α)) (h : j ≠ k) :
    get j (set k v l) = get j l := by
  induction l with
  | nil => simp [get, set, (Ne.symm h : k ≠ j)]
  | cons hd tl ih =>
    obtain ⟨k', v'⟩ := hd
    by_cases hk : k' = k
    · subst hk
      simp [get, set, (Ne.symm h : k' ≠ j)]
    · simp only [set, if_neg hk, get]
      by_cases hj : k' = j <;> simp [hj, ih]

theorem get_set_isSome (k j : String) (v : α) (l : List (String × α))
    (h : (get j l).isSome) : (get j (set k v l)).isSome := by
  by_cases hj : j = k
  · subst hj; simp
  · rwa [get_set_ne _ _ _ _ hj]

/-- Writing under a key that is not present appends the entry at the end. -/
theorem set_eq_append (k : String) (v : α) (l : List (String × α))
    (h : get k l = none) : set k v l = l ++ [(k, v)] := by
  induction l with
  | nil => simp [set]
  | cons hd tl ih =>
    obtain ⟨k', v'⟩ := hd
    by_cases hk : k' = k
    · simp [get, hk] at h
    · simp only [get, if_neg hk] at h
      simp [set, hk, ih h]

/-- A key absent from both parts of an appended store is absent from the whole. -/
theorem get_append_none (k : String) (l₁ l₂ : List (String × α))
    (h₁ : get k l₁ = none) (h₂ : get k l₂ = none) : get k (l₁ ++ l₂) = none := by
  induction l₁ with
  | nil => simpa using h₂
  | cons hd tl ih =>
    obtain ⟨k', v'⟩ := hd
    by_cases hk : k' = k
    · simp [get, hk] at h₁
    · simp only [get, if_neg hk] at h₁
      simpa [get, if_neg hk] using ih h₁

end Store

/-! ## Endpoint frame lemmas -/

/-- The upload response succeeds exactly when the lowercased extension is
in the allow-list. -/
theorem upload_success_eq (freshId ts1 ts2 filename : String) (content : List Nat)
    (s : ServerState) :
    (upload_audio freshId ts1 ts2 filename content s).1.success
      = decide (pyLower (splitext filename).2 ∈ allowed_extensions) := by
  by_cases h : pyLower (splitext filename).2 ∈ allowed_extensions <;>
    simp [upload_audio, h, resp500, okResponse]

/-- Summarization never touches the status map, the uploads, the
transcripts or the notes. -/
theorem summarize_frame (freshId ts : String) (request : SummarizeRequest) (s : ServerState) :
    (summarize_transcript freshId ts request s).2.processing_status = s.processing_status ∧
    (summarize_transcript freshId ts request s).2.uploads = s.uploads ∧
    (summarize_transcript freshId ts request s).2.transcripts = s.transcripts ∧
    (summarize_transcript freshId ts request s).2.notes = s.notes := by
  unfold summarize_transcript
  split
  · exact ⟨rfl, rfl, rfl, rfl⟩
  · split <;> exact ⟨rfl, rfl, rfl, rfl⟩

/-- Saving notes never touches the status map, the uploads, the
transcripts or the summaries. -/
theorem save_notes_frame (freshId ts : String) (request : SaveNotesRequest) (s : ServerState) :
    (save_notes freshId ts request s).2.processing_status = s.processing_status ∧
    (save_notes freshId ts request s).2.uploads = s.uploads ∧
    (save_notes freshId ts request s).2.transcripts = s.transcripts ∧
    (save_notes freshId ts request s).2.summaries = s.summaries := by
  unfold save_notes
  split
  · exact ⟨rfl, rfl, rfl, rfl⟩
  · split
    · exact ⟨rfl, rfl, rfl, rfl⟩
    · split <;> exact ⟨rfl, rfl, rfl, rfl⟩

/-- The read-only endpoints return the state unchanged. -/
theorem readonly_frame (note_id file_id : String) (s : ServerState) :
    (get_notes note_id s).2 = s ∧
    (list_all_notes s).2 = s ∧
    (get_processing_status file_id s).2 = s := by
  refine ⟨?_, ?_, ?_⟩
  · unfold get_notes; split <;> rfl
  · unfold list_all_notes; split <;> rfl
  · unfold get_processing_status; split <;> rfl

/-- When both referenced documents exist, `save_notes` writes exactly the
combined document under the fresh identifier and changes nothing else. -/
theorem save_notes_state (freshId ts : String) (request : SaveNotesRequest)
    (s : ServerState) (tdoc sdoc : Json)
    (ht : Store.get request.transcript_id s.transcripts = some tdoc)
    (hs : Store.get request.summary_id s.summaries = some sdoc) :
    (save_notes freshId ts request s).2
      = { s with notes := Store.set freshId (notes_document freshId ts request tdoc sdoc) s.notes } := by
  simp only [save_notes, ht, hs]
  split <;> rfl

/-- Every document written by `save_notes` yields a well-formed listing
entry: identifier, creation time, and the annotation-presence flag. -/
theorem noteListEntry_notes_document (note_id ts : String) (request : SaveNotesRequest)
    (tdoc sdoc : Json) :
    noteListEntry (notes_document note_id ts request tdoc sdoc)
      = some (.obj [ ("note_id", .str note_id), ("created_at", .str ts)
                   , ("has_user_notes", .bool (Json.pyTruthy (encodeOptStr request.user_notes))) ]) := by
  rfl

/-- When every stored note yields a listing entry, the listing loop
succeeds and returns exactly one entry per stored note. -/
theorem buildNotesList_eq_map (l : List (String × Json))
    (h : ∀ p ∈ l, (noteListEntry p.2).isSome) :
    buildNotesList l = some (l.map (fun p => (noteListEntry p.2).getD .null)) := by
  induction l with
  | nil => rfl
  | cons hd tl ih =>
    obtain ⟨k, doc⟩ := hd
    have hhd : (noteListEntry doc).isSome := h (k, doc) (List.mem_cons_self _ _)
    obtain ⟨entry, hentry⟩ := Option.isSome_iff_exists.mp hhd
    have htl := ih (fun p hp => h p (List.mem_cons_of_mem _ hp))
    simp [buildNotesList, hentry, htl]

/-- Effect of a batch of valid `save-notes` requests on the state: each one
appends its combined document (looked up against the initial stores, which
the batch never modifies) under its fresh identifier. -/
theorem runSaves_notes (steps : List (String × String × SaveNotesRequest)) (s : ServerState)
    (hvalid : ∀ st ∈ steps, (Store.get st.2.2.transcript_id s.transcripts).isSome ∧
                            (Store.get st.2.2.summary_id s.summaries).isSome)
    (hfresh : ∀ st ∈ steps, Store.get st.1 s.notes = none)
    (hnodup : (steps.map (·.1)).Nodup) :
    (runSaves steps s).notes
      = s.notes ++ steps.map (fun st =>
          (st.1, notes_document st.1 st.2.1 st.2.2
            ((Store.get st.2.2.transcript_id s.transcripts).getD .null)
            ((Store.get st.2.2.summary_id s.summaries).getD .null))) ∧
    (runSaves steps s).transcripts = s.transcripts ∧
    (runSaves steps s).summaries = s.summaries := by
  induction steps generalizing s with
  | nil => simp [runSaves]
  | cons hd tl ih =>
    obtain ⟨freshId, ts, request⟩ := hd
    obtain ⟨ht0, hs0⟩ := hvalid _ (List.mem_cons_self _ _)
    obtain ⟨tdoc, ht⟩ := Option.isSome_iff_exists.mp ht0
    obtain ⟨sdoc, hs⟩ := Option.isSome_iff_exists.mp hs0
    have hstep := save_notes_state freshId ts request s tdoc sdoc ht hs
    have hnotes1 : (save_notes freshId ts request s).2.notes = s.notes ++ [(freshId, notes_document freshId ts request tdoc sdoc)] := by
      rw [hstep]
      exact Store.set_eq_append _ _ _ (hfresh _ (List.mem_cons_self _ _))
    have htr1 : (save_notes freshId ts request s).2.transcripts = s.transcripts := by
      rw [hstep]
    have hsu1 : (save_notes freshId ts request s).2.summaries = s.summaries := by
      rw [hstep]
    have hnodup' : freshId ∉ tl.map (·.1) ∧ (tl.map (·.1)).Nodup := by
      simpa [List.nodup_cons] using hnodup
    have hmemmap : ∀ st ∈ tl, st.1 ≠ freshId := by
      intro st hst heq
      exact hnodup'.1 (heq ▸ List.mem_map_of_mem _ hst)
    have ihapp := ih (save_notes freshId ts request s).2
      (fun st hst => by
        rw [htr1, hsu1]
        exact hvalid st (List.mem_cons_of_mem _ hst))
      (fun st hst => by
        rw [hnotes1]
        refine Store.get_append_none _ _ _ (hfresh st (List.mem_cons_of_mem _ hst)) ?_
        simp [Store.get, Ne.symm (hmemmap st hst)])
      hnodup'.2
    refine ⟨?_, ?_, ?_⟩
    · rw [runSaves, ihapp.1, hnotes1, htr1, hsu1]
      simp [ht, hs]
    · rw [runSaves, ihapp.2.1, htr1]
    · rw [runSaves, ihapp.2.2, hsu1]

/-! ## Claim theorems -/

/-- C2 (refuted at the failing input; the code contradicts the claim): the
unknown-identifier paths do return 404 as claimed, but an upload whose
filename extension is outside the allow-list is answered with HTTP 500
(generic server error), not the 400 client error the claim states — the
`HTTPException(400)` raised in `upload_audio` is caught by that handler's
own blanket `except Exception` clause, because unlike the other endpoints
it has no `except HTTPException` clause re-raising it. -/
theorem upload_disallowed_ext_yields_500 :
    (upload_audio "u1" "t1" "t2" "notes.txt" [7] initState).1.status_code = 500 ∧
    (upload_audio "u1" "t1" "t2" "notes.txt" [7] initState).1.success = false ∧
    (upload_audio "u1" "t1" "t2" "notes.txt" [7] initState).1.status_code ≠ 400 ∧
    (transcribe_audio "tr" "t3" ⟨"missing", some "en"⟩ initState).1.status_code = 404 ∧
    (summarize_transcript "su" "t4" ⟨"missing", some "standard"⟩ initState).1.status_code = 404 ∧
    (get_notes "missing" initState).1.status_code = 404 := by
  exact ⟨rfl, rfl, by decide, rfl, rfl, rfl⟩

/-- C3: an upload whose filename extension is not in the allow-list is
rejected before anything is written: the resulting state — in particular
the upload directory and the status map — is exactly the previous state. -/
theorem upload_disallowed_ext_writes_nothing (freshId ts1 ts2 filename : String)
    (content : List Nat) (s : ServerState)
    (hext : pyLower (splitext filename).2 ∉ allowed_extensions) :
    (upload_audio freshId ts1 ts2 filename content s).2 = s ∧
    (upload_audio freshId ts1 ts2 filename content s).2.uploads = s.uploads ∧
    (upload_audio freshId ts1 ts2 filename content s).2.processing_status = s.processing_status := by
  have h : (upload_audio freshId ts1 ts2 filename content s).2 = s := by
    simp [upload_audio, hext]
  exact ⟨h, by rw [h], by rw [h]⟩

/-- Witness for the C3 theorem at a concrete input. -/
theorem upload_disallowed_ext_writes_nothing_witness :
    pyLower (splitext "notes.txt").2 ∉ allowed_extensions ∧
    (upload_audio "u1" "t1" "t2" "notes.txt" [7] fixtureState).2 = fixtureState :=
  ⟨by decide,
   (upload_disallowed_ext_writes_nothing "u1" "t1" "t2" "notes.txt" [7] fixtureState (by decide)).1⟩

/-- C9: whether an upload is accepted depends only on the lowercased
extension of its filename; uppercase variants of allowed extensions are
accepted, and a filename with no extension at all is rejected. -/
theorem upload_acceptance_lowercase_ext (freshId ts1 ts2 f1 f2 : String)
    (content : List Nat) (s : ServerState)
    (h : pyLower (splitext f1).2 = pyLower (splitext f2).2) :
    (upload_audio freshId ts1 ts2 f1 content s).1.success
      = (upload_audio freshId ts1 ts2 f2 content s).1.success ∧
    (upload_audio freshId ts1 ts2 "talk.MP3" content s).1.success = true ∧
    (upload_audio freshId ts1 ts2 "voice.WaV" content s).1.success = true ∧
    (∀ g : String, (splitext g).2 = "" →
      (upload_audio freshId ts1 ts2 g content s).1.success = false) := by
  refine ⟨?_, ?_, ?_, ?_⟩
  · rw [upload_success_eq, upload_success_eq, h]
  · rw [upload_success_eq]; decide
  · rw [upload_success_eq]; decide
  · intro g hg
    rw [upload_success_eq, hg]
    decide

/-- Witness for the C9 theorem at a concrete input. -/
theorem upload_acceptance_lowercase_ext_witness :
    pyLower (splitext "a.MP3").2 = pyLower (splitext "b.mp3").2 ∧
    (upload_audio "u1" "t1" "t2" "a.MP3" [] initState).1.success
      = (upload_audio "u1" "t1" "t2" "b.mp3" [] initState).1.success :=
  ⟨by decide,
   (upload_acceptance_lowercase_ext "u1" "t1" "t2" "a.MP3" "b.mp3" [] initState (by decide)).1⟩

/-- C4: transcribing an unknown upload identifier, and summarizing a
transcript identifier with no stored transcript, both fail with a 404 and
leave the entire stored state unchanged — in particular no transcript and
no summary file is created. -/
theorem unknown_id_not_found_state_unchanged (freshId1 ts1 freshId2 ts2 aid tid : String)
    (lang stype : Option String) (s : ServerState)
    (h1 : Store.get aid s.processing_status = none)
    (h2 : Store.get tid s.transcripts = none) :
    (transcribe_audio freshId1 ts1 ⟨aid, lang⟩ s).1.status_code = 404 ∧
    (transcribe_audio freshId1 ts1 ⟨aid, lang⟩ s).2 = s ∧
    (summarize_transcript freshId2 ts2 ⟨tid, stype⟩ s).1.status_code = 404 ∧
    (summarize_transcript freshId2 ts2 ⟨tid, stype⟩ s).2 = s := by
  refine ⟨?_, ?_, ?_, ?_⟩ <;>
    simp [transcribe_audio, summarize_transcript, h1, h2, notFoundResponse]

/-- Witness for the C4 theorem at a concrete input. -/
theorem unknown_id_not_found_state_unchanged_witness :
    Store.get "zz" fixtureState.processing_status = none ∧
    Store.get "zz" fixtureState.transcripts = none ∧
    (transcribe_audio "f1" "t1" ⟨"zz", some "en"⟩ fixtureState).1.status_code = 404 ∧
    (summarize_transcript "f2" "t2" ⟨"zz", some "standard"⟩ fixtureState).2 = fixtureState := by
  have h := unknown_id_not_found_state_unchanged "f1" "t1" "f2" "t2" "zz" "zz"
    (some "en") (some "standard") fixtureState (by rfl) (by rfl)
  exact ⟨by rfl, by rfl, h.1, h.2.2.2⟩

/-- C5: after a successful upload, a transcribe call with the returned
identifier succeeds (200), returns the transcript document, stores it under
the new transcript identifier, and that document's `audio_file_id` field is
the upload identifier. -/
theorem upload_then_transcribe_ok (freshId ts1 ts2 tid ts3 filename : String)
    (content : List Nat) (lang : Option String) (s : ServerState)
    (hext : pyLower (splitext filename).2 ∈ allowed_extensions) :
    (transcribe_audio tid ts3 ⟨freshId, lang⟩
        (upload_audio freshId ts1 ts2 filename content s).2).1.status_code = 200 ∧
    (transcribe_audio tid ts3 ⟨freshId, lang⟩
        (upload_audio freshId ts1 ts2 filename content s).2).1.data
      = some (simulate_asr_processing tid ts3 freshId) ∧
    Json.get (simulate_asr_processing tid ts3 freshId) "audio_file_id" = some (.str freshId) ∧
    Store.get tid (transcribe_audio tid ts3 ⟨freshId, lang⟩
        (upload_audio freshId ts1 ts2 filename content s).2).2.transcripts
      = some (simulate_asr_processing tid ts3 freshId) := by
  have hget : Store.get freshId (upload_audio freshId ts1 ts2 filename content s).2.processing_status
      = some ⟨"uploaded", filename, content.length, ts1, none⟩ := by
    simp [upload_audio, hext]
  refine ⟨?_, ?_, rfl, ?_⟩
  · simp [transcribe_audio, hget, okResponse]
  · simp [transcribe_audio, hget, okResponse]
  · simp [transcribe_audio, hget]

/-- Witness for the C5 theorem at a concrete input. -/
theorem upload_then_transcribe_ok_witness :
    pyLower (splitext "a.mp3").2 ∈ allowed_extensions ∧
    (transcribe_audio "t9" "ts-9" ⟨"u9", some "fr"⟩
        (upload_audio "u9" "ts-7" "ts-8" "a.mp3" [1, 2, 3] initState).2).1.status_code = 200 ∧
    Json.get (simulate_asr_processing "t9" "ts-9" "u9") "audio_file_id" = some (.str "u9") := by
  have h := upload_then_transcribe_ok "u9" "ts-7" "ts-8" "t9" "ts-9" "a.mp3"
    [1, 2, 3] (some "fr") initState (by decide)
  exact ⟨by decide, h.1, h.2.2.1⟩

/-- C10: the transcribe result does not depend on the request's optional
language field at all (same UUID and timestamp draws give identical
responses and states); the stored language field is always "en"; and two
transcript documents produced for the same audio identifier agree on every
field other than the generated `transcript_id` and `timestamp`. -/
theorem transcribe_independent_of_language (freshId ts aid t1 u1 t2 u2 : String)
    (l1 l2 : Option String) (s : ServerState)
    (k : String) (hk1 : k ≠ "transcript_id") (hk2 : k ≠ "timestamp") :
    transcribe_audio freshId ts ⟨aid, l1⟩ s = transcribe_audio freshId ts ⟨aid, l2⟩ s ∧
    Json.get (simulate_asr_processing t1 u1 aid) "language" = some (.str "en") ∧
    Json.get (simulate_asr_processing t1 u1 aid) k
      = Json.get (simulate_asr_processing t2 u2 aid) k := by
  refine ⟨rfl, rfl, ?_⟩
  simp only [simulate_asr_processing, Json.get, Json.objLookup]
  split_ifs <;> simp_all

/-- Witness for the C10 theorem at a concrete input. -/
theorem transcribe_independent_of_language_witness :
    ("language" : String) ≠ "transcript_id" ∧ ("language" : String) ≠ "timestamp" ∧
    transcribe_audio "f1" "ts-1" ⟨"u1", some "de"⟩ fixtureState
      = transcribe_audio "f1" "ts-1" ⟨"u1", none⟩ fixtureState ∧
    Json.get (simulate_asr_processing "fA" "tsA" "u1") "language"
      = Json.get (simulate_asr_processing "fB" "tsB" "u1") "language" := by
  have h := transcribe_independent_of_language "f1" "ts-1" "u1" "fA" "tsA" "fB" "tsB"
    (some "de") none fixtureState "language" (by decide) (by decide)
  exact ⟨by decide, by decide, h.1, h.2.2⟩

/-- C8: when the transcript file or the summary file referenced by a
save-notes request is missing, the failure surfaces as a generic 500 server
error (the FileNotFoundError is caught by the handler's blanket
`except Exception`), not as a distinguished 404 response. -/
theorem save_notes_missing_ref_is_500 (freshId ts : String) (request : SaveNotesRequest)
    (s : ServerState)
    (h : Store.get request.transcript_id s.transcripts = none ∨
         Store.get request.summary_id s.summaries = none) :
    (save_notes freshId ts request s).1.status_code = 500 ∧
    (save_notes freshId ts request s).1.success = false ∧
    (save_notes freshId ts request s).1.status_code ≠ 404 := by
  have hcode : (save_notes freshId ts request s).1.status_code = 500 ∧
      (save_notes freshId ts request s).1.success = false := by
    rcases h with h | h
    · simp [save_notes, h, resp500]
    · cases ht : Store.get request.transcript_id s.transcripts with
      | none => simp [save_notes, ht, resp500]
      | some tdoc => simp [save_notes, ht, h, resp500]
  exact ⟨hcode.1, hcode.2, by rw [hcode.1]; decide⟩

/-- Witness for the C8 theorem at a concrete input. -/
theorem save_notes_missing_ref_is_500_witness :
    (Store.get "t1" fixtureState.transcripts = none ∨
     Store.get "nope" fixtureState.summaries = none) ∧
    (save_notes "n1" "ts-c" ⟨"t1", "nope", some "hi"⟩ fixtureState).1.status_code = 500 := by
  have h := save_notes_missing_ref_is_500 "n1" "ts-c" ⟨"t1", "nope", some "hi"⟩
    fixtureState (Or.inr (by rfl))
  exact ⟨Or.inr (by rfl), h.1⟩

/-- C1: saving notes for a transcript identifier and a summary identifier
whose documents exist stores a note document embedding both documents
verbatim together with the supplied annotation, answers 200 with the fresh
note identifier, and retrieving that identifier afterwards returns exactly
the stored document. -/
theorem save_then_retrieve_roundtrip (freshId ts : String) (request : SaveNotesRequest)
    (s : ServerState) (tdoc sdoc : Json)
    (ht : Store.get request.transcript_id s.transcripts = some tdoc)
    (hs : Store.get request.summary_id s.summaries = some sdoc)
    (hlt : ((tdoc.getD "transcript_text" (.str "")).bind Json.pyLen).isSome)
    (hls : ((sdoc.getD "key_points" (.arr [])).bind Json.pyLen).isSome) :
    (save_notes freshId ts request s).1.status_code = 200 ∧
    ((save_notes freshId ts request s).1.data.bind (fun d => d.get "note_id"))
      = some (.str freshId) ∧
    Store.get freshId (save_notes freshId ts request s).2.notes
      = some (notes_document freshId ts request tdoc sdoc) ∧
    Json.get (notes_document freshId ts request tdoc sdoc) "transcript" = some tdoc ∧
    Json.get (notes_document freshId ts request tdoc sdoc) "summary" = some sdoc ∧
    Json.get (notes_document freshId ts request tdoc sdoc) "user_notes"
      = some (encodeOptStr request.user_notes) ∧
    get_notes freshId (save_notes freshId ts request s).2
      = (okResponse "Notes retrieved successfully" (notes_document freshId ts request tdoc sdoc),
         (save_notes freshId ts request s).2) := by
  obtain ⟨tl, htl⟩ := Option.isSome_iff_exists.mp hlt
  obtain ⟨sl, hsl⟩ := Option.isSome_iff_exists.mp hls
  have hstate := save_notes_state freshId ts request s tdoc sdoc ht hs
  refine ⟨?_, ?_, ?_, rfl, rfl, rfl, ?_⟩
  · simp [save_notes, ht, hs, htl, hsl, okResponse]
  · simp [save_notes, ht, hs, htl, hsl, okResponse, Json.get, Json.objLookup]
  · rw [hstate]; simp
  · unfold get_notes
    rw [hstate]
    simp [okResponse]

/-- Witness for the C1 theorem at a concrete input. -/
theorem save_then_retrieve_roundtrip_witness :
    Store.get "t1" fixtureState.transcripts = some fixtureTdoc ∧
    Store.get "s1" fixtureState.summaries = some fixtureSdoc ∧
    ((fixtureTdoc.getD "transcript_text" (.str "")).bind Json.pyLen).isSome ∧
    ((fixtureSdoc.getD "key_points" (.arr [])).bind Json.pyLen).isSome ∧
    (save_notes "n1" "ts-c" ⟨"t1", "s1", some "important"⟩ fixtureState).1.status_code = 200 ∧
    get_notes "n1" (save_notes "n1" "ts-c" ⟨"t1", "s1", some "important"⟩ fixtureState).2
      = (okResponse "Notes retrieved successfully"
          (notes_document "n1" "ts-c" ⟨"t1", "s1", some "important"⟩ fixtureTdoc fixtureSdoc),
         (save_notes "n1" "ts-c" ⟨"t1", "s1", some "important"⟩ fixtureState).2) := by
  have h := save_then_retrieve_roundtrip "n1" "ts-c" ⟨"t1", "s1", some "important"⟩
    fixtureState fixtureTdoc fixtureSdoc rfl rfl (by rfl) (by rfl)
  exact ⟨rfl, rfl, by rfl, by rfl, h.1, h.2.2.2.2.2.2⟩

/-- C7 counterexample: completed transcription does not update only the
`status` field of the upload record — at this concrete trace (upload
`a.mp3`, then transcribe it) the record also gains a `transcript_id` value,
so a field other than `status` changes. -/
theorem upload_record_not_only_status_mutated :
    Store.get "u1" ((upload_audio "u1" "t1" "t2" "a.mp3" [] initState).2).processing_status
      = some ⟨"uploaded", "a.mp3", 0, "t1", none⟩ ∧
    Store.get "u1" ((transcribe_audio "tr1" "t3" ⟨"u1", some "en"⟩
        (upload_audio "u1" "t1" "t2" "a.mp3" [] initState).2).2).processing_status
      = some ⟨"transcribed", "a.mp3", 0, "t1", some "tr1"⟩ ∧
    (Store.get "u1" ((transcribe_audio "tr1" "t3" ⟨"u1", some "en"⟩
        (upload_audio "u1" "t1" "t2" "a.mp3" [] initState).2).2).processing_status).map
        StatusRecord.transcript_id
      ≠ (Store.get "u1" ((upload_audio "u1" "t1" "t2" "a.mp3" [] initState).2).processing_status).map
        StatusRecord.transcript_id := by
  exact ⟨by decide, by decide, by decide⟩

/-- C7 as amended: every upload record is created on upload (status
"uploaded", no transcript identifier yet); each completed transcription of
that upload mutates it by setting `status` to "transcribed" and recording
the new transcript identifier, leaving filename, file size and upload
timestamp unchanged; and no endpoint ever deletes an upload record — upload
and transcribe leave all other records alone, and the remaining endpoints
do not touch the status map at all. -/
theorem upload_record_lifecycle
    (freshId ts1 ts2 filename : String) (content : List Nat)
    (tid ts3 : String) (lang : Option String)
    (f2 t4 f3 t5 nid fid : String) (sreq : SummarizeRequest) (nreq : SaveNotesRequest)
    (aid k : String) (s : ServerState) (r : StatusRecord)
    (hext : pyLower (splitext filename).2 ∈ allowed_extensions)
    (hrec : Store.get aid s.processing_status = some r)
    (hk1 : k ≠ freshId) (hk2 : k ≠ aid) :
    Store.get freshId (upload_audio freshId ts1 ts2 filename content s).2.processing_status
      = some ⟨"uploaded", filename, content.length, ts1, none⟩ ∧
    Store.get k (upload_audio freshId ts1 ts2 filename content s).2.processing_status
      = Store.get k s.processing_status ∧
    Store.get aid (transcribe_audio tid ts3 ⟨aid, lang⟩ s).2.processing_status
      = some { r with status := "transcribed", transcript_id := some tid } ∧
    Store.get k (transcribe_audio tid ts3 ⟨aid, lang⟩ s).2.processing_status
      = Store.get k s.processing_status ∧
    (summarize_transcript f2 t4 sreq s).2.processing_status = s.processing_status ∧
    (save_notes f3 t5 nreq s).2.processing_status = s.processing_status ∧
    (get_notes nid s).2.processing_status = s.processing_status ∧
    (list_all_notes s).2.processing_status = s.processing_status ∧
    (get_processing_status fid s).2.processing_status = s.processing_status := by
  refine ⟨?_, ?_, ?_, ?_, (summarize_frame f2 t4 sreq s).1, (save_notes_frame f3 t5 nreq s).1,
    ?_, ?_, ?_⟩
  · simp [upload_audio, hext]
  · simp [upload_audio, hext, Store.get_set_ne _ _ _ _ hk1]
  · simp [transcribe_audio, hrec]
  · simp [transcribe_audio, hrec, Store.get_set_ne _ _ _ _ hk2]
  · rw [(readonly_frame nid fid s).1]
  · rw [(readonly_frame nid fid s).2.1]
  · rw [(readonly_frame nid fid s).2.2]

/-- Witness for the amended C7 theorem at a concrete input. -/
theorem upload_record_lifecycle_witness :
    pyLower (splitext "b.wav").2 ∈ allowed_extensions ∧
    Store.get "u1" fixtureState.processing_status
      = some ⟨"transcribed", "a.mp3", 2, "ts-0", some "t1"⟩ ∧
    ("kk" : String) ≠ "u7" ∧ ("kk" : String) ≠ "u1" ∧
    Store.get "u7" (upload_audio "u7" "x1" "x2" "b.wav" [5] fixtureState).2.processing_status
      = some ⟨"uploaded", "b.wav", 1, "x1", none⟩ ∧
    Store.get "u1" (transcribe_audio "t7" "x3" ⟨"u1", none⟩ fixtureState).2.processing_status
      = some ⟨"transcribed", "a.mp3", 2, "ts-0", some "t7"⟩ := by
  have h := upload_record_lifecycle "u7" "x1" "x2" "b.wav" [5] "t7" "x3" none
    "f2" "t4" "f3" "t5" "nid" "fid" ⟨"t1", none⟩ ⟨"t1", "s1", none⟩
    "u1" "kk" fixtureState ⟨"transcribed", "a.mp3", 2, "ts-0", some "t1"⟩
    (by decide) (by rfl) (by decide) (by decide)
  exact ⟨by decide, by rfl, by decide, by decide, h.1, h.2.2.1⟩

/-- C6: after a batch of N valid save-notes requests with pairwise distinct
fresh identifiers, starting from a state with no notes, listing notes
succeeds and returns exactly N entries, each an object exposing exactly the
note identifier, its creation time, and a boolean for the presence of a
user annotation — not the embedded documents or the annotation text. -/
theorem list_notes_after_saves (steps : List (String × String × SaveNotesRequest))
    (s : ServerState)
    (hempty : s.notes = [])
    (hnodup : (steps.map (·.1)).Nodup)
    (hvalid : ∀ st ∈ steps, (Store.get st.2.2.transcript_id s.transcripts).isSome ∧
                            (Store.get st.2.2.summary_id s.summaries).isSome) :
    ∃ entries : List Json,
      buildNotesList (runSaves steps s).notes = some entries ∧
      entries.length = steps.length ∧
      (∀ e ∈ entries, ∃ nid cat hu,
        e = Json.obj [("note_id", nid), ("created_at", cat), ("has_user_notes", Json.bool hu)]) ∧
      list_all_notes (runSaves steps s)
        = (okResponse ("Found " ++ toString steps.length ++ " notes")
            (.obj [("count", .num (steps.length : Rat)), ("notes", .arr entries)]),
           runSaves steps s) := by
  have hfresh : ∀ st ∈ steps, Store.get st.1 s.notes = none := by
    intro st hst
    rw [hempty]
    rfl
  obtain ⟨hnotes, -, -⟩ := runSaves_notes steps s hvalid hfresh hnodup
  have hall : ∀ p ∈ (runSaves steps s).notes, (noteListEntry p.2).isSome := by
    intro p hp
    rw [hnotes, hempty] at hp
    simp only [List.nil_append, List.mem_map] at hp
    obtain ⟨st, hst, rfl⟩ := hp
    rw [noteListEntry_notes_document]
    rfl
  have hbuild := buildNotesList_eq_map _ hall
  have hL : (runSaves steps s).notes.map (fun p => (noteListEntry p.2).getD .null)
      = steps.map (fun st =>
          Json.obj [ ("note_id", .str st.1), ("created_at", .str st.2.1)
                   , ("has_user_notes", .bool (Json.pyTruthy (encodeOptStr st.2.2.user_notes))) ]) := by
    rw [hnotes, hempty]
    simp [noteListEntry_notes_document]
  refine ⟨_, hbuild, ?_, ?_, ?_⟩
  · rw [hL, List.length_map]
  · intro e he
    rw [hL] at he
    simp only [List.mem_map] at he
    obtain ⟨st, hst, rfl⟩ := he
    exact ⟨_, _, _, rfl⟩
  · have hlen : ((runSaves steps s).notes.map (fun p => (noteListEntry p.2).getD Json.null)).length
        = steps.length := by
      rw [hL, List.length_map]
    simp only [list_all_notes, hbuild]
    rw [hlen]

/-- Witness for the C6 theorem at a concrete input (two saved notes). -/
theorem list_notes_after_saves_witness :
    fixtureState.notes = [] ∧
    (([ ("n1", "tA", (⟨"t1", "s1", some "x"⟩ : SaveNotesRequest))
      , ("n2", "tB", (⟨"t1", "s1", none⟩ : SaveNotesRequest)) ].map (·.1)).Nodup) ∧
    ∃ entries : List Json,
      buildNotesList (runSaves
        [ ("n1", "tA", (⟨"t1", "s1", some "x"⟩ : SaveNotesRequest))
        , ("n2", "tB", (⟨"t1", "s1", none⟩ : SaveNotesRequest)) ] fixtureState).notes
        = some entries ∧
      entries.length = 2 := by
  have h := list_notes_after_saves
    [ ("n1", "tA", (⟨"t1", "s1", some "x"⟩ : SaveNotesRequest))
    , ("n2", "tB", (⟨"t1", "s1", none⟩ : SaveNotesRequest)) ] fixtureState
    rfl (by decide) (by decide)
  obtain ⟨entries, h1, h2, -, -⟩ := h
  exact ⟨rfl, by decide, entries, h1, h2⟩
